import Mathlib

/-!
Verification development for the browser process lifecycle and CDP
connectivity manager of the autoBrowser repository.

The TypeScript sources are shallowly embedded: pure computations become
Lean functions; filesystem probes, shell calls, network probes and child
process state are abstracted as explicit oracles (functions of a path or
of time), and the side effects a call performs (directory creation,
process spawn, signal delivery) are collected in an explicit effect
trace.  Wall-clock time is a natural number of milliseconds and every
suspension advances it explicitly.
-/

namespace AutoBrowser

/-- Host platform, mirroring the values of `process.platform` that the
source distinguishes (`darwin`, `linux`, `win32`, anything else). -/
inductive Platform where
  | darwin
  | linux
  | win32
  | other
deriving DecidableEq, Repr

/-- `BrowserExecutable` from `chrome.executables.ts`: the kind tag and the
filesystem path of a resolved browser binary. -/
inductive BrowserKind where
  | brave
  | canary
  | chromium
  | chrome
  | custom
  | edge
deriving DecidableEq, Repr

structure BrowserExecutable where
  kind : BrowserKind
  path : String
deriving DecidableEq, Repr

/-- `ResolvedBrowserConfig` from `types.ts`.  Optional fields become
`Option`. -/
structure ResolvedBrowserConfig where
  executablePath : Option String
  headless : Bool
  noSandbox : Bool
  enabled : Option Bool
  controlPort : Option Nat
deriving DecidableEq, Repr

/-- `ResolvedBrowserProfile` from `types.ts`. -/
structure ResolvedBrowserProfile where
  name : String
  cdpPort : Nat
  cdpUrl : String
  cdpIsLoopback : Bool
  color : String
deriving DecidableEq, Repr

/-- Oracle describing the parts of the operating system that executable
resolution consults: `fs` is `fs.existsSync` (the source's `exists`
wrapper, which maps exceptions to `false`), `homedir` is `os.homedir()`,
`macDetect` is the result of the shell-based macOS default browser
detection (`detectDefaultChromiumExecutableMac`, which runs `plutil`,
`osascript` and `defaults`), and the two `programFiles` fields are the
`ProgramFiles` / `ProgramFiles(x86)` environment variables. -/
structure OsEnv where
  fs : String → Bool
  homedir : String
  macDetect : Option BrowserExecutable
  programFiles : Option String
  programFilesX86 : Option String

/-- POSIX `path.join` restricted to the two-segment uses in the source. -/
def pathJoin (a b : String) : String :=
  a ++ "/" ++ b

/-- `path.win32.join` restricted to the uses in the source. -/
def winJoin (a b : String) : String :=
  a ++ "\\" ++ b

/-- `findFirstExecutable` from `chrome.executables.ts`: first candidate
whose path exists, else `none`.  The per-candidate loop of
`detectDefaultChromiumExecutableLinux` has the same shape and is embedded
through this helper as well. -/
def findFirstExecutable (fs : String → Bool) : List BrowserExecutable → Option BrowserExecutable
  | [] => none
  | c :: rest => if fs c.path then some c else findFirstExecutable fs rest

/-- `detectDefaultChromiumExecutableLinux`: best-effort Linux detection
over three fixed candidate paths (the source's for-loop over its
`candidates` array). -/
def detectDefaultChromiumExecutableLinux (fs : String → Bool) : Option BrowserExecutable :=
  findFirstExecutable fs
    [ ⟨.chrome, "/usr/bin/google-chrome"⟩,
      ⟨.chromium, "/usr/bin/chromium"⟩,
      ⟨.chromium, "/usr/bin/chromium-browser"⟩ ]

/-- `detectDefaultChromiumExecutableWindows`: the source returns `null`
unconditionally. -/
def detectDefaultChromiumExecutableWindows : Option BrowserExecutable :=
  none

/-- `detectDefaultChromiumExecutable`: platform dispatch.  The macOS arm
is the shell-based detection, abstracted as the `macDetect` oracle. -/
def detectDefaultChromiumExecutable (env : OsEnv) (platform : Platform) : Option BrowserExecutable :=
  match platform with
  | .darwin => env.macDetect
  | .linux => detectDefaultChromiumExecutableLinux env.fs
  | .win32 => detectDefaultChromiumExecutableWindows
  | .other => none

/-- `findChromeExecutableMac`: the fixed ordered macOS candidate list. -/
def findChromeExecutableMac (env : OsEnv) : Option BrowserExecutable :=
  findFirstExecutable env.fs
    [ ⟨.chrome, "/Applications/Google Chrome.app/Contents/MacOS/Google Chrome"⟩,
      ⟨.chrome, pathJoin env.homedir "Applications/Google Chrome.app/Contents/MacOS/Google Chrome"⟩,
      ⟨.brave, "/Applications/Brave Browser.app/Contents/MacOS/Brave Browser"⟩,
      ⟨.brave, pathJoin env.homedir "Applications/Brave Browser.app/Contents/MacOS/Brave Browser"⟩,
      ⟨.chromium, "/Applications/Chromium.app/Contents/MacOS/Chromium"⟩,
      ⟨.chromium, pathJoin env.homedir "Applications/Chromium.app/Contents/MacOS/Chromium"⟩,
      ⟨.canary, "/Applications/Google Chrome Canary.app/Contents/MacOS/Google Chrome Canary"⟩ ]

/-- `findChromeExecutableLinux`: the fixed ordered Linux candidate list. -/
def findChromeExecutableLinux (fs : String → Bool) : Option BrowserExecutable :=
  findFirstExecutable fs
    [ ⟨.chrome, "/usr/bin/google-chrome"⟩,
      ⟨.chrome, "/usr/bin/google-chrome-stable"⟩,
      ⟨.chrome, "/usr/bin/chrome"⟩,
      ⟨.chromium, "/usr/bin/chromium"⟩,
      ⟨.chromium, "/usr/bin/chromium-browser"⟩,
      ⟨.chromium, "/snap/bin/chromium"⟩ ]

/-- `findChromeExecutableWindows`: Program Files candidate list, with the
environment-variable defaults of the source. -/
def findChromeExecutableWindows (env : OsEnv) : Option BrowserExecutable :=
  let programFiles := env.programFiles.getD "C:\\Program Files"
  let programFilesX86 := env.programFilesX86.getD "C:\\Program Files (x86)"
  findFirstExecutable env.fs
    [ ⟨.chrome, winJoin (winJoin (winJoin (winJoin programFiles "Google") "Chrome") "Application") "chrome.exe"⟩,
      ⟨.chrome, winJoin (winJoin (winJoin (winJoin programFilesX86 "Google") "Chrome") "Application") "chrome.exe"⟩ ]

/-- Error raised by `resolveBrowserExecutableForPlatform` when an explicit
`executablePath` does not exist on disk (the source throws an `Error`
with the message `browser.executablePath not found: <path>`). -/
inductive ConfigError where
  | executablePathNotFound (p : String)
deriving DecidableEq, Repr

/-- Auto-detection part of `resolveBrowserExecutableForPlatform`: the
default-browser detection followed by the platform candidate scan. -/
def resolveBrowserExecutableAuto (env : OsEnv) (platform : Platform) : Option BrowserExecutable :=
  match detectDefaultChromiumExecutable env platform with
  | some d => some d
  | none =>
    match platform with
    | .darwin => findChromeExecutableMac env
    | .linux => findChromeExecutableLinux env.fs
    | .win32 => findChromeExecutableWindows env
    | .other => none

/-- `resolveBrowserExecutableForPlatform`.  The guard
`if (resolved.executablePath)` is a JavaScript truthiness test, so an
absent path and an empty-string path both fall through to
auto-detection; a nonempty path is checked on disk and either returned
as a custom executable or reported as a configuration error. -/
def resolveBrowserExecutableForPlatform (env : OsEnv) (resolved : ResolvedBrowserConfig)
    (platform : Platform) : Except ConfigError (Option BrowserExecutable) :=
  match resolved.executablePath with
  | some p =>
    if p = "" then .ok (resolveBrowserExecutableAuto env platform)
    else if env.fs p then .ok (some ⟨.custom, p⟩)
    else .error (.executablePathNotFound p)
  | none => .ok (resolveBrowserExecutableAuto env platform)

/-- Observable side effects of the launcher and of shutdown: directory
creation, child-process spawn, and signal delivery attempts.
Stdout logging is not modelled. -/
inductive Sig where
  | sigterm
  | sigkill
deriving DecidableEq, Repr

inductive ChromeEffect where
  | mkdir (dir : String)
  | spawn (exePath : String) (args : List String)
  | killAttempt (s : Sig)
deriving DecidableEq, Repr

/-- Errors thrown by `launchClawdChrome`, with the data each message
carries.  `configRemoteProfile` is the `Profile is remote` error,
`configBadExecutablePath` the propagated resolver error,
`noBrowserFound` the `No supported browser found` error, and
`connectivityTimeout` the `Failed to start Chrome CDP on port <port>
for profile <name>` error. -/
inductive LaunchError where
  | configRemoteProfile (name : String)
  | configBadExecutablePath (p : String)
  | noBrowserFound
  | connectivityTimeout (port : Nat) (name : String)
deriving DecidableEq, Repr

/-- `RunningChrome` from `chrome.ts` (the opaque Node process handle is
dropped; its observable state lives in the stop-time oracle). -/
structure RunningChrome where
  pid : Int
  exe : BrowserExecutable
  userDataDir : String
  cdpPort : Nat
  startedAt : Nat
deriving DecidableEq, Repr

/-- World oracle for `launchClawdChrome`.  `reachable t` is the outcome
of the HTTP probe `isChromeReachable(profile.cdpUrl, 500)` started at
time `t`, and `probeDur t` is how long that probe runs;
`wsUrlAt t` is the outcome of `getChromeWebSocketUrl` (version fetch
plus URL normalization) started at `t`, and `wsOpenAt u t` the outcome
of the WebSocket handshake `canOpenWebSocket(u)` started at `t`.
`spawnPid` is `proc.pid` of the spawned child. -/
structure LaunchWorld where
  env : OsEnv
  platform : Platform
  cwd : String
  spawnPid : Option Nat
  reachable : Nat → Bool
  probeDur : Nat → Nat
  wsUrlAt : Nat → Option String
  wsOpenAt : String → Nat → Bool

/-- `isChromeReachable`: HTTP GET of `/json/version`, abstracted as the
`reachable` oracle. -/
def isChromeReachable (w : LaunchWorld) (t : Nat) : Bool :=
  w.reachable t

/-- `isChromeCdpReady` from `chrome.ts`: fetch and normalize the
WebSocket debugger URL, then attempt a WebSocket handshake; both network
steps are oracles, the composition is the source's. -/
def isChromeCdpReady (w : LaunchWorld) (t : Nat) : Bool :=
  match w.wsUrlAt t with
  | none => false
  | some wsUrl => w.wsOpenAt wsUrl t

/-- The launch argument list built by `spawnOnce` in `launchClawdChrome`,
with the same base array and conditional pushes as the source. -/
def buildChromeArgs (resolved : ResolvedBrowserConfig) (profile : ResolvedBrowserProfile)
    (platform : Platform) (userDataDir : String) : List String :=
  let args : List String :=
    [ "--remote-debugging-port=" ++ toString profile.cdpPort,
      "--user-data-dir=" ++ userDataDir,
      "--no-first-run",
      "--no-default-browser-check",
      "--disable-sync",
      "--disable-background-networking",
      "--disable-component-update",
      "--disable-features=Translate,MediaRouter",
      "--disable-session-crashed-bubble",
      "--hide-crash-restore-bubble",
      "--password-store=basic" ]
  let args := if resolved.headless then args ++ ["--headless=new", "--disable-gpu"] else args
  let args := if resolved.noSandbox then args ++ ["--no-sandbox", "--disable-setuid-sandbox"] else args
  let args := if platform = .linux then args ++ ["--disable-dev-shm-usage"] else args
  args ++ ["about:blank"]

/-- The user-data directory `path.join(process.cwd(), "browser-data",
profile.name)`. -/
def userDataDirFor (cwd : String) (profile : ResolvedBrowserProfile) : String :=
  pathJoin (pathJoin cwd "browser-data") profile.name

/-- The readiness polling loop of `launchClawdChrome`: while the
deadline has not passed, run one HTTP probe (advancing time by its
duration); stop on success, otherwise sleep 200 ms and retry.  Returns
the time at which the loop exits. -/
def pollLoop (probe : Nat → Bool) (dur : Nat → Nat) (deadline : Nat) (t : Nat) : Nat :=
  if t < deadline then
    if probe t then t + dur t
    else pollLoop probe dur deadline (t + dur t + 200)
  else t
termination_by deadline - t
decreasing_by omega

/-- `launchClawdChrome`: loopback guard, executable resolution, profile
directory creation, spawn, bounded readiness polling, and the final
probe that either accepts the session or force-kills the child and
fails.  Returns the effect trace, the finishing time, and the result. -/
def launchClawdChrome (w : LaunchWorld) (resolved : ResolvedBrowserConfig)
    (profile : ResolvedBrowserProfile) (t0 : Nat) :
    List ChromeEffect × Nat × Except LaunchError RunningChrome :=
  if profile.cdpIsLoopback then
    match resolveBrowserExecutableForPlatform w.env resolved w.platform with
    | .error (.executablePathNotFound p) => ([], t0, .error (.configBadExecutablePath p))
    | .ok none => ([], t0, .error .noBrowserFound)
    | .ok (some exe) =>
      let userDataDir := userDataDirFor w.cwd profile
      let args := buildChromeArgs resolved profile w.platform userDataDir
      let startedAt := t0
      let deadline := t0 + 15000
      let tLoop := pollLoop w.reachable w.probeDur deadline t0
      let tFin := tLoop + w.probeDur tLoop
      if isChromeReachable w tLoop then
        ([.mkdir userDataDir, .spawn exe.path args], tFin,
          .ok { pid := (w.spawnPid.map Int.ofNat).getD (-1), exe := exe,
                userDataDir := userDataDir, cdpPort := profile.cdpPort,
                startedAt := startedAt })
      else
        ([.mkdir userDataDir, .spawn exe.path args, .killAttempt .sigkill], tFin,
          .error (.connectivityTimeout profile.cdpPort profile.name))
  else ([], t0, .error (.configRemoteProfile profile.name))

/-- World oracle for `stopClawdChrome`.  `killedInit` is `proc.killed`
at entry; `termSucceeds` says whether `proc.kill("SIGTERM")` delivers
(on success Node sets `proc.killed`); `exitCodeAt t` is `proc.exitCode`
at time `t`; `reachableAt t` and `probeDur t` describe the outcome and
duration of the `isChromeReachable(url, 200)` probe started at `t`. -/
structure StopWorld where
  killedInit : Bool
  termSucceeds : Bool
  exitCodeAt : Nat → Option Int
  reachableAt : Nat → Nat → Bool
  probeDur : Nat → Nat

/-- JavaScript truthiness of `proc.exitCode` (a number or `null`):
falsy when `null` or `0`. -/
def jsTruthyExitCode : Option Int → Bool
  | none => false
  | some n => decide (n ≠ 0)

/-- The wait loop of `stopClawdChrome`: while less than `timeout` ms
have passed, break out (towards SIGKILL) when `!proc.exitCode &&
proc.killed` holds, return without escalation when the endpoint probe
fails, otherwise sleep 100 ms and retry.  Returns the exit time and
whether the loop fell through to the SIGKILL escalation. -/
def stopLoop (w : StopWorld) (cdpPort : Nat) (killed : Bool) (start timeout : Nat) (t : Nat) :
    Nat × Bool :=
  if t - start < timeout then
    if !jsTruthyExitCode (w.exitCodeAt t) && killed then (t, true)
    else
      let d := w.probeDur t
      if !w.reachableAt cdpPort t then (t + d, false)
      else stopLoop w cdpPort killed start timeout (t + d + 100)
  else (t, true)
termination_by start + timeout - t
decreasing_by omega

/-- `stopClawdChrome`: early return when `proc.killed` is already set,
then a SIGTERM attempt, the wait loop, and a SIGKILL attempt when the
loop is left by break or by timeout.  Returns the signal-delivery trace
and the finishing time. -/
def stopClawdChrome (w : StopWorld) (running : RunningChrome) (timeoutMs : Nat) (t0 : Nat) :
    List ChromeEffect × Nat :=
  if w.killedInit then ([], t0)
  else
    let killed := w.termSucceeds
    let r := stopLoop w running.cdpPort killed t0 timeoutMs t0
    if r.2 then ([.killAttempt .sigterm, .killAttempt .sigkill], r.1)
    else ([.killAttempt .sigterm], r.1)

/-- The module-level session registry of the browser tools file: the
single mutable `activeBrowser` slot. -/
structure RegistryState where
  activeBrowser : Option RunningChrome
deriving DecidableEq, Repr

/-- The fixed profile literal that `browserStart` passes to
`launchClawdChrome`. -/
def defaultBrowserProfile : ResolvedBrowserProfile :=
  { name := "default", cdpPort := 9222, cdpUrl := "http://127.0.0.1:9222",
    cdpIsLoopback := true, color := "#ff0000" }

/-- The config literal that `browserStart` builds from its options:
`headless` is `opts?.headless ?? false` (collapsed here into one
`Option Bool`), `noSandbox` is `false`, nothing else is set. -/
def browserStartConfig (optsHeadless : Option Bool) : ResolvedBrowserConfig :=
  { executablePath := none, headless := optsHeadless.getD false, noSandbox := false,
    enabled := none, controlPort := none }

/-- `browserStart`: when a session is tracked and its loopback endpoint
is reachable (the `reachNow` oracle stands for the `isChromeReachable`
call on `http://127.0.0.1:<port>`), return at once; otherwise drop any
stale handle and launch afresh, recording the new handle on success.
On a launch failure the slot stays empty and the error propagates. -/
def browserStart (w : LaunchWorld) (reachNow : Nat → Bool) (optsHeadless : Option Bool)
    (s : RegistryState) (t0 : Nat) :
    RegistryState × List ChromeEffect × Except LaunchError Unit :=
  match s.activeBrowser with
  | some rc =>
    if reachNow rc.cdpPort then (s, [], .ok ())
    else
      let r := launchClawdChrome w (browserStartConfig optsHeadless) defaultBrowserProfile t0
      match r.2.2 with
      | .ok running => (⟨some running⟩, r.1, .ok ())
      | .error e => (⟨none⟩, r.1, .error e)
  | none =>
    let r := launchClawdChrome w (browserStartConfig optsHeadless) defaultBrowserProfile t0
    match r.2.2 with
    | .ok running => (⟨some running⟩, r.1, .ok ())
    | .error e => (⟨none⟩, r.1, .error e)

/-- `browserStop`: no tracked session means an immediate no-op; with a
tracked session, run `stopClawdChrome` (which swallows all signalling
errors) and clear the slot. -/
def browserStop (w : StopWorld) (s : RegistryState) (t0 : Nat) :
    RegistryState × List ChromeEffect :=
  match s.activeBrowser with
  | none => (s, [])
  | some rc => (⟨none⟩, (stopClawdChrome w rc 2500 t0).1)

/-- `getCdpUrl`: the loopback CDP base URL of the tracked session, or
the `Browser not started` error. -/
def getCdpUrl (s : RegistryState) : Except String String :=
  match s.activeBrowser with
  | none => .error "Browser not started"
  | some rc => .ok ("http://127.0.0.1:" ++ toString rc.cdpPort)

/-! Concrete fixtures used by witnesses and counterexamples. -/

/-- Filesystem in which exactly `/usr/bin/google-chrome` exists. -/
def envLinuxGC : OsEnv :=
  { fs := fun p => p == "/usr/bin/google-chrome", homedir := "/root",
    macDetect := none, programFiles := none, programFilesX86 := none }

/-- Filesystem in which nothing exists. -/
def envEmptyFs : OsEnv :=
  { fs := fun _ => false, homedir := "/root",
    macDetect := none, programFiles := none, programFilesX86 := none }

/-- A config with an explicit executable path set to the empty string. -/
def cfgEmptyPath : ResolvedBrowserConfig :=
  { executablePath := some "", headless := false, noSandbox := false,
    enabled := none, controlPort := none }

/-- A non-loopback profile. -/
def profileRemote : ResolvedBrowserProfile :=
  { name := "remote", cdpPort := 9222, cdpUrl := "http://10.0.0.5:9222",
    cdpIsLoopback := false, color := "#00ff00" }

/-- The executable that resolution finds under `envLinuxGC`. -/
def exeLinuxGC : BrowserExecutable :=
  ⟨.chrome, "/usr/bin/google-chrome"⟩

/-- Launch world on Linux with `/usr/bin/google-chrome` installed whose
CDP endpoint never becomes HTTP-reachable; probes return instantly. -/
def launchWorldUnreachable : LaunchWorld :=
  { env := envLinuxGC, platform := .linux, cwd := "/work", spawnPid := some 42,
    reachable := fun _ => false, probeDur := fun _ => 0,
    wsUrlAt := fun _ => none, wsOpenAt := fun _ _ => false }

/-- Launch world whose CDP endpoint is always HTTP-reachable but which
never advertises a usable WebSocket debugger URL, so no WebSocket
handshake can ever succeed. -/
def launchWorldHttpOnly : LaunchWorld :=
  { env := envLinuxGC, platform := .linux, cwd := "/work", spawnPid := some 42,
    reachable := fun _ => true, probeDur := fun _ => 0,
    wsUrlAt := fun _ => none, wsOpenAt := fun _ _ => false }

/-- Same world as `launchWorldHttpOnly` except for the WebSocket
oracles, which here always hand out a URL and accept the handshake. -/
def launchWorldHttpOnlyAlt : LaunchWorld :=
  { env := envLinuxGC, platform := .linux, cwd := "/work", spawnPid := some 42,
    reachable := fun _ => true, probeDur := fun _ => 0,
    wsUrlAt := fun _ => some "ws://127.0.0.1:9222/devtools/browser/abc",
    wsOpenAt := fun _ _ => true }

/-- The session handle that `launchClawdChrome` returns in the fixture
worlds above. -/
def runningDefault : RunningChrome :=
  { pid := 42, exe := exeLinuxGC, userDataDir := "/work/browser-data/default",
    cdpPort := 9222, startedAt := 0 }

/-- Stop-time world of a live, reachable process that receives SIGTERM
successfully (`killed` becomes true) and has not exited
(`exitCode` stays `null`). -/
def stopWorldLive : StopWorld :=
  { killedInit := false, termSucceeds := true, exitCodeAt := fun _ => none,
    reachableAt := fun _ _ => true, probeDur := fun _ => 0 }

/-! Theorems about the embedded program. -/

/-- C8: for every config, profile, platform and user-data directory, the
argument list `launchClawdChrome` hands to `spawn` is exactly the eleven
fixed flags in order, then the headless pair iff `headless` is set, then
the sandbox pair iff `noSandbox` is set, then the dev-shm flag iff the
platform is Linux, and finally `about:blank`. -/
theorem chromeArgs_exact (resolved : ResolvedBrowserConfig) (profile : ResolvedBrowserProfile)
    (platform : Platform) (userDataDir : String) :
    buildChromeArgs resolved profile platform userDataDir =
      [ "--remote-debugging-port=" ++ toString profile.cdpPort,
        "--user-data-dir=" ++ userDataDir,
        "--no-first-run",
        "--no-default-browser-check",
        "--disable-sync",
        "--disable-background-networking",
        "--disable-component-update",
        "--disable-features=Translate,MediaRouter",
        "--disable-session-crashed-bubble",
        "--hide-crash-restore-bubble",
        "--password-store=basic" ]
      ++ (if resolved.headless then ["--headless=new", "--disable-gpu"] else [])
      ++ (if resolved.noSandbox then ["--no-sandbox", "--disable-setuid-sandbox"] else [])
      ++ (if platform = .linux then ["--disable-dev-shm-usage"] else [])
      ++ ["about:blank"] := by
  by_cases h1 : resolved.headless <;> by_cases h2 : resolved.noSandbox <;>
    by_cases h3 : platform = .linux <;>
    simp [buildChromeArgs, h1, h2, h3]

/-- C7: a profile with `cdpIsLoopback = false` is rejected by
`launchClawdChrome` with the remote-profile configuration error, with an
empty effect trace (no directory creation, no spawn) and no time spent;
since the statement holds for every world, the rejection is independent
of executable resolution and of every oracle. -/
theorem launch_remote_profile_rejected
    (w : LaunchWorld) (resolved : ResolvedBrowserConfig) (profile : ResolvedBrowserProfile)
    (t0 : Nat) (hremote : profile.cdpIsLoopback = false) :
    launchClawdChrome w resolved profile t0 =
      ([], t0, .error (.configRemoteProfile profile.name)) := by
  simp [launchClawdChrome, hremote]

/-- Witness for C7 at the concrete remote profile fixture. -/
theorem launch_remote_profile_rejected_witness :
    profileRemote.cdpIsLoopback = false ∧
    launchClawdChrome launchWorldUnreachable (browserStartConfig none) profileRemote 0 =
      ([], 0, .error (.configRemoteProfile "remote")) :=
  ⟨rfl, launch_remote_profile_rejected _ _ _ _ rfl⟩

/-- C6 counterexample: `executablePath` set to the empty string — a path
that does not exist on disk — does not raise a configuration error:
the JavaScript truthiness guard `if (resolved.executablePath)` treats it
as unset, and resolution proceeds to auto-detection (here ending in
`none` on an empty filesystem). -/
theorem resolve_empty_executablePath_no_error :
    cfgEmptyPath.executablePath = some "" ∧
    envEmptyFs.fs "" = false ∧
    resolveBrowserExecutableForPlatform envEmptyFs cfgEmptyPath .linux = .ok none :=
  ⟨rfl, rfl, rfl⟩

/-- C6 amended: for every platform and every config whose
`executablePath` is a nonempty path, resolution raises the
configuration error when the path does not exist and returns the custom
executable when it does; in either case the outcome depends only on the
existence of that one path (so auto-detection and the candidate scan
are never consulted). -/
theorem resolve_explicit_path_behavior
    (env : OsEnv) (resolved : ResolvedBrowserConfig) (platform : Platform) (p : String)
    (hpath : resolved.executablePath = some p) (hne : p ≠ "") :
    (env.fs p = false →
      resolveBrowserExecutableForPlatform env resolved platform =
        .error (.executablePathNotFound p)) ∧
    (env.fs p = true →
      resolveBrowserExecutableForPlatform env resolved platform = .ok (some ⟨.custom, p⟩)) ∧
    (∀ env' : OsEnv, env'.fs p = env.fs p →
      resolveBrowserExecutableForPlatform env' resolved platform =
        resolveBrowserExecutableForPlatform env resolved platform) := by
  refine ⟨?_, ?_, ?_⟩
  · intro hfs
    simp [resolveBrowserExecutableForPlatform, hpath, hne, hfs]
  · intro hfs
    simp [resolveBrowserExecutableForPlatform, hpath, hne, hfs]
  · intro env' hfs
    simp only [resolveBrowserExecutableForPlatform, hpath, if_neg hne]
    rw [hfs]

/-- Witness for C6 at a nonexistent nonempty path on an empty
filesystem. -/
theorem resolve_explicit_path_behavior_witness :
    ({ cfgEmptyPath with executablePath := some "/opt/zzz" } :
        ResolvedBrowserConfig).executablePath = some "/opt/zzz" ∧
    ("/opt/zzz" : String) ≠ "" ∧
    resolveBrowserExecutableForPlatform envEmptyFs
        { cfgEmptyPath with executablePath := some "/opt/zzz" } .linux =
      .error (.executablePathNotFound "/opt/zzz") :=
  ⟨rfl, by decide,
    (resolve_explicit_path_behavior envEmptyFs _ .linux "/opt/zzz" rfl (by decide)).1 rfl⟩

/-- C3 counterexample: on a Linux filesystem where
`/usr/bin/google-chrome` exists, the default-detection step returns that
executable, not `null` — the source's Linux arm is a best-effort
three-candidate check, not an unimplemented stub. -/
theorem detectLinux_can_find_chrome :
    detectDefaultChromiumExecutableLinux envLinuxGC.fs = some exeLinuxGC ∧
    detectDefaultChromiumExecutableLinux envLinuxGC.fs ≠ none := by
  decide

/-- C3 amended: on Linux the default-detection step scans the fixed
candidates `/usr/bin/google-chrome`, `/usr/bin/chromium`,
`/usr/bin/chromium-browser` in that order and returns the first that
exists (`null` only when none exists); resolution without an explicit
executable path consults this detection first and falls back to the
six-entry candidate scan only when it yields nothing. -/
theorem detectLinux_is_candidate_probe
    (fs : String → Bool) (env : OsEnv) (resolved : ResolvedBrowserConfig)
    (hpath : resolved.executablePath = none) :
    detectDefaultChromiumExecutableLinux fs =
      (if fs "/usr/bin/google-chrome" then some ⟨.chrome, "/usr/bin/google-chrome"⟩
       else if fs "/usr/bin/chromium" then some ⟨.chromium, "/usr/bin/chromium"⟩
       else if fs "/usr/bin/chromium-browser" then some ⟨.chromium, "/usr/bin/chromium-browser"⟩
       else none) ∧
    resolveBrowserExecutableForPlatform env resolved .linux =
      .ok (match detectDefaultChromiumExecutableLinux env.fs with
           | some d => some d
           | none => findChromeExecutableLinux env.fs) := by
  constructor
  · simp [detectDefaultChromiumExecutableLinux, findFirstExecutable]
  · simp [resolveBrowserExecutableForPlatform, hpath, resolveBrowserExecutableAuto,
      detectDefaultChromiumExecutable]

/-- Witness for C3 on the concrete Linux fixture. -/
theorem detectLinux_is_candidate_probe_witness :
    (browserStartConfig none).executablePath = none ∧
    resolveBrowserExecutableForPlatform envLinuxGC (browserStartConfig none) .linux =
      .ok (match detectDefaultChromiumExecutableLinux envLinuxGC.fs with
           | some d => some d
           | none => findChromeExecutableLinux envLinuxGC.fs) :=
  ⟨rfl, (detectLinux_is_candidate_probe envLinuxGC.fs envLinuxGC _ rfl).2⟩

/-- When every probe runs for at most 500 ms, the readiness loop exits
no later than 699 ms past the deadline: a last iteration can start just
before the deadline and still pay one probe plus the 200 ms sleep. -/
theorem pollLoop_exit_le (probe : Nat → Bool) (dur : Nat → Nat)
    (hdur : ∀ s, dur s ≤ 500) (deadline : Nat) :
    ∀ t, t ≤ deadline + 699 → pollLoop probe dur deadline t ≤ deadline + 699 := by
  have key : ∀ k t, deadline - t ≤ k → t ≤ deadline + 699 →
      pollLoop probe dur deadline t ≤ deadline + 699 := by
    intro k
    induction k with
    | zero =>
      intro t hk ht
      unfold pollLoop
      rw [if_neg (by omega)]
      exact ht
    | succ k ih =>
      intro t hk ht
      unfold pollLoop
      by_cases hlt : t < deadline
      · rw [if_pos hlt]
        by_cases hp : probe t
        · rw [if_pos hp]
          have := hdur t
          omega
        · rw [if_neg hp]
          exact ih (t + dur t + 200) (by omega) (by have := hdur t; omega)
      · rw [if_neg hlt]
        exact ht
  intro t
  exact key (deadline - t) t (le_refl _)

/-- C1: for every config, loopback profile and world in which an
executable resolves and every HTTP probe takes at most its 500 ms
budget, `launchClawdChrome` (1) always finishes within the 15-second
deadline plus final-probe slack, (2) when the endpoint is never
HTTP-reachable it produces exactly the mkdir/spawn trace followed by a
SIGKILL to the spawned process and the connectivity error naming the
port and profile, (3) returns a session only when the exit-time probe
found the endpoint reachable, and (4) whenever it reports the
connectivity error the SIGKILL to its own spawned process is in the
trace. -/
theorem launch_deadline_kills_and_errors
    (w : LaunchWorld) (resolved : ResolvedBrowserConfig) (profile : ResolvedBrowserProfile)
    (t0 : Nat) (exe : BrowserExecutable)
    (hloop : profile.cdpIsLoopback = true)
    (hres : resolveBrowserExecutableForPlatform w.env resolved w.platform = .ok (some exe))
    (hdur : ∀ t, w.probeDur t ≤ 500) :
    (launchClawdChrome w resolved profile t0).2.1 ≤ t0 + 16200 ∧
    ((∀ t, w.reachable t = false) →
      (launchClawdChrome w resolved profile t0).2.2 =
          .error (.connectivityTimeout profile.cdpPort profile.name) ∧
      (launchClawdChrome w resolved profile t0).1 =
          [.mkdir (userDataDirFor w.cwd profile),
           .spawn exe.path
             (buildChromeArgs resolved profile w.platform (userDataDirFor w.cwd profile)),
           .killAttempt .sigkill]) ∧
    (∀ rc : RunningChrome, (launchClawdChrome w resolved profile t0).2.2 = .ok rc →
      w.reachable (pollLoop w.reachable w.probeDur (t0 + 15000) t0) = true) ∧
    ((launchClawdChrome w resolved profile t0).2.2 =
        .error (.connectivityTimeout profile.cdpPort profile.name) →
      ChromeEffect.killAttempt .sigkill ∈ (launchClawdChrome w resolved profile t0).1) := by
  have hexit : pollLoop w.reachable w.probeDur (t0 + 15000) t0 ≤ t0 + 15000 + 699 :=
    pollLoop_exit_le w.reachable w.probeDur hdur (t0 + 15000) t0 (by omega)
  unfold launchClawdChrome
  rw [hloop, hres]
  simp only [if_true, isChromeReachable]
  by_cases hr : w.reachable (pollLoop w.reachable w.probeDur (t0 + 15000) t0)
  · rw [if_pos hr]
    refine ⟨?_, ?_, ?_, ?_⟩
    · have := hdur (pollLoop w.reachable w.probeDur (t0 + 15000) t0)
      simp only
      omega
    · intro hun
      rw [hun] at hr
      exact absurd hr (by simp)
    · intro rc _
      exact hr
    · intro hcontra
      simp at hcontra
  · rw [if_neg hr]
    refine ⟨?_, ?_, ?_, ?_⟩
    · have := hdur (pollLoop w.reachable w.probeDur (t0 + 15000) t0)
      simp only
      omega
    · intro _
      exact ⟨rfl, rfl⟩
    · intro rc hrc
      simp at hrc
    · intro _
      simp

/-- Witness for C1 in the never-reachable fixture world. -/
theorem launch_deadline_kills_and_errors_witness :
    defaultBrowserProfile.cdpIsLoopback = true ∧
    resolveBrowserExecutableForPlatform launchWorldUnreachable.env (browserStartConfig none)
        launchWorldUnreachable.platform = .ok (some exeLinuxGC) ∧
    (launchClawdChrome launchWorldUnreachable (browserStartConfig none)
        defaultBrowserProfile 0).2.1 ≤ 0 + 16200 ∧
    (launchClawdChrome launchWorldUnreachable (browserStartConfig none)
        defaultBrowserProfile 0).2.2 = .error (.connectivityTimeout 9222 "default") ∧
    (launchClawdChrome launchWorldUnreachable (browserStartConfig none)
        defaultBrowserProfile 0).1 =
      [.mkdir "/work/browser-data/default",
       .spawn "/usr/bin/google-chrome"
         (buildChromeArgs (browserStartConfig none) defaultBrowserProfile .linux
           "/work/browser-data/default"),
       .killAttempt .sigkill] := by
  have h := launch_deadline_kills_and_errors launchWorldUnreachable (browserStartConfig none)
    defaultBrowserProfile 0 exeLinuxGC rfl rfl (fun t => by simp [launchWorldUnreachable])
  have hun : ∀ t, launchWorldUnreachable.reachable t = false := fun t => rfl
  exact ⟨rfl, rfl, h.1, (h.2.1 hun).1, (h.2.1 hun).2⟩

/-- C4 counterexample: in a world whose CDP endpoint is always
HTTP-reachable but which never advertises a WebSocket debugger URL (so
`isChromeCdpReady` is false at every instant, in particular at the
launch and readiness times), `launchClawdChrome` still returns a
session: HTTP reachability alone is its readiness signal, a WebSocket
handshake is never required. -/
theorem launch_succeeds_without_ws_handshake :
    (launchClawdChrome launchWorldHttpOnly (browserStartConfig none)
        defaultBrowserProfile 0).2.2 = .ok runningDefault ∧
    isChromeCdpReady launchWorldHttpOnly 0 = false ∧
    isChromeCdpReady launchWorldHttpOnly 15000 = false := by
  refine ⟨?_, rfl, rfl⟩
  unfold launchClawdChrome
  rw [show resolveBrowserExecutableForPlatform launchWorldHttpOnly.env
        (browserStartConfig none) launchWorldHttpOnly.platform = .ok (some exeLinuxGC)
      from rfl]
  simp only [defaultBrowserProfile, if_true, isChromeReachable]
  unfold pollLoop
  simp [launchWorldHttpOnly, runningDefault, exeLinuxGC, userDataDirFor, pathJoin]

/-- C4 amended: the readiness decision of `launchClawdChrome` is HTTP
reachability of `/json/version` alone: its outcome (effects, timing and
result) is wholly independent of the WebSocket oracles — the
`isChromeCdpReady` handshake check exists in the source but is never
consulted by launch. -/
theorem launch_independent_of_ws_oracles
    (w₁ w₂ : LaunchWorld) (resolved : ResolvedBrowserConfig)
    (profile : ResolvedBrowserProfile) (t0 : Nat)
    (henv : w₁.env = w₂.env) (hplat : w₁.platform = w₂.platform)
    (hcwd : w₁.cwd = w₂.cwd) (hpid : w₁.spawnPid = w₂.spawnPid)
    (hreach : w₁.reachable = w₂.reachable) (hdur : w₁.probeDur = w₂.probeDur) :
    launchClawdChrome w₁ resolved profile t0 = launchClawdChrome w₂ resolved profile t0 := by
  obtain ⟨e₁, p₁, c₁, s₁, r₁, d₁, u₁, o₁⟩ := w₁
  obtain ⟨e₂, p₂, c₂, s₂, r₂, d₂, u₂, o₂⟩ := w₂
  simp only at henv hplat hcwd hpid hreach hdur
  subst henv hplat hcwd hpid hreach hdur
  rfl

/-- Witness for C4 on the two fixture worlds that differ only in their
WebSocket oracles. -/
theorem launch_independent_of_ws_oracles_witness :
    launchWorldHttpOnly.env = launchWorldHttpOnlyAlt.env ∧
    launchWorldHttpOnly.wsUrlAt 0 ≠ launchWorldHttpOnlyAlt.wsUrlAt 0 ∧
    launchClawdChrome launchWorldHttpOnly (browserStartConfig none) defaultBrowserProfile 0 =
      launchClawdChrome launchWorldHttpOnlyAlt (browserStartConfig none)
        defaultBrowserProfile 0 :=
  ⟨rfl, by decide,
    launch_independent_of_ws_oracles launchWorldHttpOnly launchWorldHttpOnlyAlt
      (browserStartConfig none) defaultBrowserProfile 0 rfl rfl rfl rfl rfl rfl⟩

/-- C2: contrary to the claim, shutdown does not poll for up to 2.5
seconds before escalating.  With a live process whose SIGTERM delivery
succeeds (`killed` becomes true while `exitCode` is still `null`) and
whose endpoint stays reachable, the wait-loop guard
`!proc.exitCode && proc.killed` is already true on the first iteration,
so `stopClawdChrome` breaks out immediately and sends SIGKILL at the
very time it was called: graceful SIGTERM is followed by an immediate
SIGKILL, with no poll and no timeout. -/
theorem stop_sigkills_immediately_despite_liveness :
    stopClawdChrome stopWorldLive runningDefault 2500 0 =
      ([.killAttempt .sigterm, .killAttempt .sigkill], 0) ∧
    stopWorldLive.exitCodeAt 0 = none ∧
    stopWorldLive.reachableAt runningDefault.cdpPort 0 = true := by
  refine ⟨?_, rfl, rfl⟩
  unfold stopClawdChrome
  unfold stopLoop
  simp [stopWorldLive, jsTruthyExitCode]

/-- C5: while a tracked session's endpoint is HTTP-reachable,
`browserStart` is a no-op: it performs no effect (in particular spawns
no process), reports success, and leaves the very same handle — same
pid, same everything — tracked; so a second call after a first
successful one reuses the first session. -/
theorem browserStart_idempotent_reuse
    (w : LaunchWorld) (reachNow : Nat → Bool) (optsHeadless : Option Bool)
    (s : RegistryState) (t0 : Nat) (rc : RunningChrome)
    (htracked : s.activeBrowser = some rc)
    (hreach : reachNow rc.cdpPort = true) :
    browserStart w reachNow optsHeadless s t0 = (s, [], .ok ()) ∧
    (browserStart w reachNow optsHeadless s t0).1.activeBrowser = some rc := by
  obtain ⟨ab⟩ := s
  subst htracked
  refine ⟨?_, ?_⟩ <;> simp [browserStart, hreach]

/-- Witness for C5 with a tracked, reachable fixture session. -/
theorem browserStart_idempotent_reuse_witness :
    (RegistryState.mk (some runningDefault)).activeBrowser = some runningDefault ∧
    (fun _ : Nat => true) runningDefault.cdpPort = true ∧
    browserStart launchWorldUnreachable (fun _ => true) (some true)
        ⟨some runningDefault⟩ 0 = (⟨some runningDefault⟩, [], .ok ()) :=
  ⟨rfl, rfl,
    (browserStart_idempotent_reuse launchWorldUnreachable (fun _ => true) (some true)
      ⟨some runningDefault⟩ 0 runningDefault rfl rfl).1⟩

/-- C9: `browserStop` with no tracked session is a no-op that returns
without error and with no effect; with any tracked session it always
clears the slot (shutdown swallows every signalling failure, so nothing
can prevent the clearing), after which `getCdpUrl` raises the
`Browser not started` error. -/
theorem browserStop_clears_registry
    (w : StopWorld) (s : RegistryState) (t0 : Nat) :
    (s.activeBrowser = none → browserStop w s t0 = (s, [])) ∧
    (browserStop w s t0).1.activeBrowser = none ∧
    getCdpUrl (browserStop w s t0).1 = .error "Browser not started" := by
  obtain ⟨ab⟩ := s
  cases ab <;> simp [browserStop, getCdpUrl]

/-- Witness for C9 on the empty registry and on a live session. -/
theorem browserStop_clears_registry_witness :
    browserStop stopWorldLive ⟨none⟩ 0 = (⟨none⟩, []) ∧
    (browserStop stopWorldLive ⟨some runningDefault⟩ 0).1.activeBrowser = none ∧
    getCdpUrl (browserStop stopWorldLive ⟨some runningDefault⟩ 0).1 =
      .error "Browser not started" :=
  ⟨(browserStop_clears_registry stopWorldLive ⟨none⟩ 0).1 rfl,
    (browserStop_clears_registry stopWorldLive ⟨some runningDefault⟩ 0).2.1,
    (browserStop_clears_registry stopWorldLive ⟨some runningDefault⟩ 0).2.2⟩

/-- C10: when a tracked session is reachable, `browserStart` ignores
the options of the new call entirely: calls with any two option values
(and even different worlds and times, since nothing is launched) return
identical results, and the tracked session with its stored
configuration is left unchanged. -/
theorem browserStart_reuse_ignores_options
    (w₁ w₂ : LaunchWorld) (reachNow : Nat → Bool) (o₁ o₂ : Option Bool)
    (s : RegistryState) (t₁ t₂ : Nat) (rc : RunningChrome)
    (htracked : s.activeBrowser = some rc)
    (hreach : reachNow rc.cdpPort = true) :
    browserStart w₁ reachNow o₁ s t₁ = browserStart w₂ reachNow o₂ s t₂ ∧
    (browserStart w₁ reachNow o₁ s t₁).1 = s := by
  obtain ⟨ab⟩ := s
  subst htracked
  refine ⟨?_, ?_⟩ <;> simp [browserStart, hreach]

/-- Witness for C10: a headless-true restart request against a
reachable session launched non-headless changes nothing. -/
theorem browserStart_reuse_ignores_options_witness :
    (RegistryState.mk (some runningDefault)).activeBrowser = some runningDefault ∧
    browserStart launchWorldUnreachable (fun _ => true) (some true)
        ⟨some runningDefault⟩ 5 =
      browserStart launchWorldHttpOnly (fun _ => true) none ⟨some runningDefault⟩ 9 ∧
    (browserStart launchWorldUnreachable (fun _ => true) (some true)
        ⟨some runningDefault⟩ 5).1 = ⟨some runningDefault⟩ :=
  ⟨rfl,
    (browserStart_reuse_ignores_options launchWorldUnreachable launchWorldHttpOnly
      (fun _ => true) (some true) none ⟨some runningDefault⟩ 5 9 runningDefault rfl rfl).1,
    (browserStart_reuse_ignores_options launchWorldUnreachable launchWorldHttpOnly
      (fun _ => true) (some true) none ⟨some runningDefault⟩ 5 9 runningDefault rfl rfl).2⟩

end AutoBrowser
